import Mathlib

/-!
Verification of the check-in table row controller
(`src/components/CheckIn/TableRow.tsx`).

The component is embedded shallowly:

* the attendee record `InterfaceTableCheckIn` is a structure with the fields
  the component reads (`userId`, `eventId`, `name`, `checkIn`);
* every externally visible action of the component (a toast emission, the
  check-in mutation request, the call into the document generator, opening the
  artifact URL, the refetch trigger) is an `Event`, and each handler is a pure
  function from the record plus the outcomes of its external collaborators to
  the list of events it emits, in emission order;
* a JavaScript `throw` is an `Option JsValue` threaded next to the event list:
  `generateTagBody` is the try-block of `generateTag` (events plus the thrown
  value, if any) and `generateTag` is the surrounding `try/catch`;
* `notify` is `toast.promise(generateTag, {pending, success, error})`: the
  pending toast, then the events of `generateTag`, then the success toast when
  the returned promise resolved and the error toast when it rejected;
* the translation function `t` is an abstract `TKey → String`, and the
  JavaScript `t(...) || fallback` idiom is `strOr`, with empty-string falsiness.
-/

namespace CheckInRow

/-- JavaScript whitespace as far as the names in this component are concerned:
the characters removed by `String.prototype.trim`. -/
def jsWhitespace (c : Char) : Bool :=
  c == ' ' || c == '\t' || c == '\n' || c == '\r' || c == '\x0b' || c == '\x0c'

/-- `String.prototype.trim`: drop leading and trailing whitespace. Defined
structurally over the character list so that it evaluates by `decide`. -/
def jsTrim (s : String) : String :=
  String.mk (((s.data.dropWhile jsWhitespace).reverse.dropWhile jsWhitespace).reverse)

/-- JavaScript `a || b` on strings: the empty string is the only falsy string,
so it falls through to the fallback. -/
def strOr (s fb : String) : String :=
  if s = "" then fb else s

/-- The translation keys the component passes to `t`. -/
inductive TKey
  | checkedInSuccessfully
  | errorCheckingIn
  | generatingPdf
  | pdfGenerated
  | pdfGenerationError
  | invalidName
  deriving DecidableEq

/-- Fallback for `t('generatingPdf') || ...`. -/
def fbGeneratingPdf : String := "Generating PDF..."

/-- Fallback for `t('pdfGenerated') || ...`. -/
def fbPdfGenerated : String := "PDF generated successfully!"

/-- Fallback for `t('pdfGenerationError') || ...` in the `toast.promise`
message set. -/
def fbPdfGenError : String := "Error generating PDF!"

/-- Fallback for `t('invalidName') || ...`. -/
def fbInvalidName : String := "Invalid or empty name provided"

/-- Message used for a thrown value that is not an `Error` instance. -/
def fbUnknownError : String := "Unknown error"

/-- A thrown JavaScript value as the catch block distinguishes it:
an `Error` carrying a message, or any non-`Error` value. -/
inductive JsValue
  | error (msg : String)
  | nonError
  deriving DecidableEq

/-- `error instanceof Error ? error.message : 'Unknown error'`. -/
def thrownMessage : JsValue → String
  | JsValue.error m => m
  | JsValue.nonError => fbUnknownError

/-- The attendee record, with the fields `TableRow` reads. `checkIn` is the
nullable check-in marker (`none` is JavaScript `null`). -/
structure InterfaceTableCheckIn where
  userId : String
  eventId : String
  name : String
  checkIn : Option String
  deriving DecidableEq

/-- Field position inside the tag template, in template units. -/
structure Position where
  x : Nat
  y : Nat
  deriving DecidableEq

/-- Text alignment choices of the schema input. -/
inductive Alignment
  | left
  | center
  | right
  deriving DecidableEq

/-- One schema input for the tag template, mirroring the component's
`InterfaceSchemaInput`. -/
structure InterfaceSchemaInput where
  name : String
  type : String
  content : String
  position : Position
  width : Nat
  height : Nat
  alignment : Option Alignment
  fontSize : Option Nat
  dynamicFontSize : Option Bool
  deriving DecidableEq

/-- Modelled from the spec: the static layout descriptor imported from
`tagTemplate.ts` (a file of this repository that is not under `src/`). The
spec calls it pure data with no behavior of its own, so it is opaque here; no
claim depends on its contents. -/
inductive Template
  | tag
  deriving DecidableEq

/-- The `tagTemplate` value passed to the generator. -/
def tagTemplate : Template := Template.tag

/-- One externally visible action of the row controller, in emission order. -/
inductive Event
  | toastPending (msg : String)
  | toastSuccess (msg : String)
  | toastError (msg : String)
  | checkInCall (userId eventId : String)
  | refetch
  | generatorCall (template : Template) (inputs : List InterfaceSchemaInput)
  | openUrl (url : String)
  deriving DecidableEq

/-- Outcome of the remote check-in mutation: resolved, or rejected with an
error whose `.message` is the given string. -/
inductive MutationOutcome
  | ok
  | err (msg : String)
  deriving DecidableEq

/-- Outcomes of the two awaited external steps of `generateTag`: the
document generator call, and the deliver step (`Blob`/`URL.createObjectURL`/
`window.open`), which yields the object URL when it succeeds. -/
structure GenerateEnv where
  genResult : Except JsValue (List Nat)
  deliverResult : Except JsValue String

/-- The `markCheckIn` handler: issue the mutation with the record's ids, then
on resolution `toast.success(t('checkedInSuccessfully')); refetch()`, and on
rejection `toast.error(t('errorCheckingIn')); toast.error(err.message)`. -/
def markCheckIn (t : TKey → String) (data : InterfaceTableCheckIn)
    (outcome : MutationOutcome) : List Event :=
  Event.checkInCall data.userId data.eventId ::
    match outcome with
    | MutationOutcome.ok =>
        [Event.toastSuccess (t TKey.checkedInSuccessfully), Event.refetch]
    | MutationOutcome.err m =>
        [Event.toastError (t TKey.errorCheckingIn), Event.toastError m]

/-- The single schema input `generateTag` pushes: both `name` and `content`
are the trimmed display name, with the fixed layout literals of the source. -/
def schemaInput (data : InterfaceTableCheckIn) : InterfaceSchemaInput :=
  { name := jsTrim data.name
    type := "text"
    content := jsTrim data.name
    position := { x := 10, y := 20 }
    width := 200
    height := 50
    alignment := some Alignment.center
    fontSize := some 12
    dynamicFontSize := some true }

/-- The try-block of `generateTag`: the events emitted before any throw,
paired with the thrown value when one is thrown. The guard mirrors
`!data.name || typeof data.name !== 'string' || !data.name.trim()`; `name` is
a string in this model, so the `typeof` disjunct never fires, and the other
two are empty-string falsiness. On passing validation the generator is called
with the template and the single schema input; if it resolves, the artifact is
wrapped and opened (the deliver step), yielding `openUrl`. -/
def generateTagBody (t : TKey → String) (data : InterfaceTableCheckIn)
    (env : GenerateEnv) : List Event × Option JsValue :=
  if data.name = "" ∨ jsTrim data.name = "" then
    ([], some (JsValue.error (strOr (t TKey.invalidName) fbInvalidName)))
  else
    match env.genResult with
    | Except.error e => ([Event.generatorCall tagTemplate [schemaInput data]], some e)
    | Except.ok _ =>
        match env.deliverResult with
        | Except.error e =>
            ([Event.generatorCall tagTemplate [schemaInput data]], some e)
        | Except.ok url =>
            ([Event.generatorCall tagTemplate [schemaInput data], Event.openUrl url], none)

/-- The catch block's toast text:
``toast.error(`${t('pdfGenerationError')}: ${errorMessage}`)``. -/
def catchText (t : TKey → String) (e : JsValue) : String :=
  t TKey.pdfGenerationError ++ ": " ++ thrownMessage e

/-- `generateTag`: the try-block wrapped in the catch-all handler. A thrown
value becomes one direct error toast and the function then resolves, so the
returned thrown component is always `none`. -/
def generateTag (t : TKey → String) (data : InterfaceTableCheckIn)
    (env : GenerateEnv) : List Event × Option JsValue :=
  let b := generateTagBody t data env
  match b.2 with
  | none => (b.1, none)
  | some e => (b.1 ++ [Event.toastError (catchText t e)], none)

/-- The `notify` handler: `toast.promise(generateTag, ...)`. The pending toast
is shown, then `generateTag` runs, then the success toast when its promise
resolved and the wrapper's error toast when it rejected. -/
def notify (t : TKey → String) (data : InterfaceTableCheckIn)
    (env : GenerateEnv) : List Event :=
  let r := generateTag t data env
  Event.toastPending (strOr (t TKey.generatingPdf) fbGeneratingPdf) ::
    (r.1 ++
      match r.2 with
      | none => [Event.toastSuccess (strOr (t TKey.pdfGenerated) fbPdfGenerated)]
      | some _ => [Event.toastError (strOr (t TKey.pdfGenerationError) fbPdfGenError)])

/-- Predicate on events: a pending toast. -/
def isPendingToast : Event → Bool
  | Event.toastPending _ => true
  | _ => false

/-- Predicate on events: a success toast. -/
def isSuccessToast : Event → Bool
  | Event.toastSuccess _ => true
  | _ => false

/-- Predicate on events: an error toast. -/
def isErrorToast : Event → Bool
  | Event.toastError _ => true
  | _ => false

/-- Predicate on events: a terminal notification (success or error toast). -/
def isTerminal : Event → Bool
  | Event.toastSuccess _ => true
  | Event.toastError _ => true
  | _ => false

/-- Predicate on events: a call into the document generator. -/
def isGenCall : Event → Bool
  | Event.generatorCall _ _ => true
  | _ => false

/-- Predicate on events: the artifact handle was opened. -/
def isOpen : Event → Bool
  | Event.openUrl _ => true
  | _ => false

/-- Predicate on events: the refresh trigger. -/
def isRefetch : Event → Bool
  | Event.refetch => true
  | _ => false

/-- Number of pending toasts in a trace. -/
def countPending (l : List Event) : Nat := l.countP isPendingToast

/-- Number of success toasts in a trace. -/
def countSuccess (l : List Event) : Nat := l.countP isSuccessToast

/-- Number of error toasts in a trace. -/
def countError (l : List Event) : Nat := l.countP isErrorToast

/-- Number of terminal notifications in a trace. -/
def countTerminal (l : List Event) : Nat := l.countP isTerminal

/-- Number of generator calls in a trace. -/
def countGenCall (l : List Event) : Nat := l.countP isGenCall

/-- Number of opened artifact handles in a trace. -/
def countOpen (l : List Event) : Nat := l.countP isOpen

/-- Number of refresh triggers in a trace. -/
def countRefetch (l : List Event) : Nat := l.countP isRefetch

/-- The inputs of the first generator call of a trace, when there is one. -/
def callInputs (l : List Event) : Option (List InterfaceSchemaInput) :=
  l.findSome? fun ev =>
    match ev with
    | Event.generatorCall _ ins => some ins
    | _ => none

/-- The UI affordances a row can render. -/
inductive Affordance
  | checkedInBadge
  | downloadTagButton
  | checkInButton
  deriving DecidableEq

/-- The render branch of `TableRow`: `data.checkIn !== null` shows the
disabled checked-in badge and the download-tag action, otherwise the
check-in action. -/
def renderRow (data : InterfaceTableCheckIn) : List Affordance :=
  if data.checkIn.isSome then [Affordance.checkedInBadge, Affordance.downloadTagButton]
  else [Affordance.checkInButton]

/-- The row's local state: the record reference it holds. -/
structure RowState where
  data : InterfaceTableCheckIn
  deriving DecidableEq

/-- `markCheckIn` with the record threaded through explicitly: the source only
reads `data.userId` and `data.eventId` and assigns to no field of `data`, so
the state comes back as it went in. -/
def markCheckInRun (t : TKey → String) (s : RowState)
    (outcome : MutationOutcome) : RowState × List Event :=
  (s, markCheckIn t s.data outcome)

/-- `generateTag` with the record threaded through explicitly: the source only
reads `data.name` and assigns to no field of `data`. -/
def generateTagRun (t : TKey → String) (s : RowState)
    (env : GenerateEnv) : RowState × List Event :=
  (s, (generateTag t s.data env).1)

/-- A translation table returning the empty string everywhere, driving every
`t(...) || fallback` to its fallback. -/
def tEmpty : TKey → String := fun _ => ""

/-- Sample checked-in record with a padded name. -/
def recAlice : InterfaceTableCheckIn :=
  { userId := "u2", eventId := "e1", name := "  Alice  ", checkIn := some "2024-01-01T00:00:00Z" }

/-- Sample checked-in record with a whitespace-only name. -/
def recBlank : InterfaceTableCheckIn :=
  { userId := "u3", eventId := "e1", name := "   ", checkIn := some "2024-01-01T00:00:00Z" }

/-- Sample checked-in record with a plain valid name. -/
def recCarol : InterfaceTableCheckIn :=
  { userId := "u4", eventId := "e1", name := "Carol", checkIn := some "2024-01-01T00:00:00Z" }

/-- Environment in which generation and delivery both succeed. -/
def envOk : GenerateEnv :=
  { genResult := Except.ok [37, 80, 68, 70], deliverResult := Except.ok "blob:tag" }

/-- Environment in which the generator rejects with `template malformed`. -/
def envGenFail : GenerateEnv :=
  { genResult := Except.error (JsValue.error "template malformed"),
    deliverResult := Except.ok "blob:tag" }

/-- Environment in which the generator throws a value that is not an `Error`. -/
def envGenNonError : GenerateEnv :=
  { genResult := Except.error JsValue.nonError, deliverResult := Except.ok "blob:tag" }

theorem jsTrim_empty : jsTrim "" = "" := by decide

/-- The try-block emits no toasts at all: its events are generator calls and
`openUrl` only. -/
theorem body_no_toasts (t : TKey → String) (data : InterfaceTableCheckIn)
    (env : GenerateEnv) :
    countError (generateTagBody t data env).1 = 0 ∧
    countSuccess (generateTagBody t data env).1 = 0 ∧
    countPending (generateTagBody t data env).1 = 0 ∧
    countTerminal (generateTagBody t data env).1 = 0 := by
  unfold generateTagBody
  split
  · simp [countError, countSuccess, countPending, countTerminal]
  · cases env.genResult with
    | error e =>
        simp [countError, countSuccess, countPending, countTerminal,
          List.countP_cons, isErrorToast, isSuccessToast, isPendingToast, isTerminal]
    | ok pdf =>
        cases env.deliverResult with
        | error e =>
            simp [countError, countSuccess, countPending, countTerminal,
              List.countP_cons, isErrorToast, isSuccessToast, isPendingToast, isTerminal]
        | ok url =>
            simp [countError, countSuccess, countPending, countTerminal,
              List.countP_cons, isErrorToast, isSuccessToast, isPendingToast, isTerminal]

/-- When the try-block throws, no artifact handle was opened. -/
theorem body_no_open_of_thrown (t : TKey → String) (data : InterfaceTableCheckIn)
    (env : GenerateEnv) (h : (generateTagBody t data env).2.isSome) :
    countOpen (generateTagBody t data env).1 = 0 := by
  unfold generateTagBody at h ⊢
  by_cases hc : data.name = "" ∨ jsTrim data.name = ""
  · simp [hc, countOpen]
  · rw [if_neg hc] at h ⊢
    cases hg : env.genResult with
    | error e => simp [hg, countOpen, List.countP_cons, isOpen]
    | ok pdf =>
        cases hd : env.deliverResult with
        | error e => simp [hg, hd, countOpen, List.countP_cons, isOpen]
        | ok url => rw [hg, hd] at h; simp at h

/-- A record whose name does not trim to the empty string passes the guard. -/
theorem valid_guard (data : InterfaceTableCheckIn) (h : jsTrim data.name ≠ "") :
    ¬(data.name = "" ∨ jsTrim data.name = "") := by
  rintro (h1 | h2)
  · exact h (h1 ▸ jsTrim_empty)
  · exact h h2

/-- `generateTag` appends the catch toast to the try-block's events exactly
when the try-block threw, and always resolves. -/
theorem generateTag_eq (t : TKey → String) (data : InterfaceTableCheckIn)
    (env : GenerateEnv) :
    generateTag t data env =
      ((generateTagBody t data env).1 ++
        (match (generateTagBody t data env).2 with
         | none => []
         | some e => [Event.toastError (catchText t e)]), none) := by
  unfold generateTag
  cases hb : (generateTagBody t data env).2 <;> simp [hb]

/-- For a name that survives trimming, the first (and only) generator call of
`generateTag` carries exactly the single schema input derived from the
record. -/
theorem callInputs_valid (t : TKey → String) (data : InterfaceTableCheckIn)
    (env : GenerateEnv) (h : jsTrim data.name ≠ "") :
    callInputs (generateTag t data env).1 = some [schemaInput data] := by
  rw [generateTag_eq]
  unfold generateTagBody
  rw [if_neg (valid_guard data h)]
  cases hg : env.genResult with
  | error e => simp [callInputs]
  | ok pdf =>
      cases hd : env.deliverResult with
      | error e => simp [callInputs]
      | ok url => simp [callInputs]

/-- Toast counts of a full `generateTag` run: no pending and no success toast
is ever emitted by the handler itself, and it emits exactly one error toast
when its try-block threw and none otherwise, so its error toasts are its only
terminal notifications. -/
theorem generateTag_counts (t : TKey → String) (data : InterfaceTableCheckIn)
    (env : GenerateEnv) :
    countPending (generateTag t data env).1 = 0 ∧
    countSuccess (generateTag t data env).1 = 0 ∧
    countError (generateTag t data env).1 =
      (if (generateTagBody t data env).2.isSome then 1 else 0) ∧
    countTerminal (generateTag t data env).1 = countError (generateTag t data env).1 := by
  obtain ⟨hE, hS, hP, hT⟩ := body_no_toasts t data env
  have hg := generateTag_eq t data env
  cases hb : (generateTagBody t data env).2 with
  | none =>
      rw [hb] at hg
      have hg1 : (generateTag t data env).1 = (generateTagBody t data env).1 := by
        rw [hg]
        simp
      rw [hg1]
      simp [hE, hS, hP, hT]
  | some e =>
      rw [hb] at hg
      have hg1 : (generateTag t data env).1 =
          (generateTagBody t data env).1 ++ [Event.toastError (catchText t e)] := by
        rw [hg]
      rw [hg1]
      simp only [countPending, countSuccess, countError, countTerminal,
        List.countP_append, List.countP_cons, List.countP_nil] at hE hS hP hT ⊢
      simp [hE, hS, hP, hT, isPendingToast, isSuccessToast, isErrorToast, isTerminal]

/-- The event trace of `notify`: the pending toast, then the events of
`generateTag`, then — since `generateTag` always resolves — the wrapper's
success toast. -/
theorem notify_eq (t : TKey → String) (data : InterfaceTableCheckIn)
    (env : GenerateEnv) :
    notify t data env =
      Event.toastPending (strOr (t TKey.generatingPdf) fbGeneratingPdf) ::
        ((generateTag t data env).1 ++
          [Event.toastSuccess (strOr (t TKey.pdfGenerated) fbPdfGenerated)]) := by
  have hg2 : (generateTag t data env).2 = none := by rw [generateTag_eq]
  simp only [notify]
  rw [hg2]

/-- C2: the check-in affordance is rendered exactly when `checkIn` is null and
the tag-download affordance exactly when it is non-null; the two are mutually
exclusive and every record shows exactly one of them. -/
theorem affordances_partition (data : InterfaceTableCheckIn) :
    (Affordance.checkInButton ∈ renderRow data ↔ data.checkIn = none) ∧
    (Affordance.downloadTagButton ∈ renderRow data ↔ data.checkIn ≠ none) ∧
    ¬(Affordance.checkInButton ∈ renderRow data ∧
        Affordance.downloadTagButton ∈ renderRow data) ∧
    (Affordance.checkInButton ∈ renderRow data ∨
        Affordance.downloadTagButton ∈ renderRow data) := by
  cases h : data.checkIn <;> simp [renderRow, h]

/-- C1 counterexample: with a valid name and a generator that rejects with
`template malformed`, one `notify` invocation emits two terminal
notifications — the direct error toast from `generateTag`'s catch block and
then the wrapper's success toast (the wrapped promise resolved), so "exactly
one terminal notification, success xor error" fails on this input. -/
theorem notify_two_terminals_on_failure :
    countTerminal (notify tEmpty recCarol envGenFail) = 2 ∧
    countTerminal (notify tEmpty recCarol envGenFail) ≠ 1 ∧
    Event.toastError (catchText tEmpty (JsValue.error "template malformed")) ∈
      notify tEmpty recCarol envGenFail ∧
    Event.toastSuccess fbPdfGenerated ∈ notify tEmpty recCarol envGenFail := by
  decide

/-- C1 (amended): within one `generateTag` invocation through `notify`,
exactly one pending notification is emitted and it comes first, before the
generation work; the wrapper then emits exactly one terminal notification
after the operation completes, and it is always the success message because
`generateTag` never rejects; when the operation failed, one additional error
toast was already emitted directly by the catch block, so a failed invocation
carries two terminal notifications and a successful one exactly one. -/
theorem notify_three_phase (t : TKey → String) (data : InterfaceTableCheckIn)
    (env : GenerateEnv) :
    (notify t data env).head? =
      some (Event.toastPending (strOr (t TKey.generatingPdf) fbGeneratingPdf)) ∧
    countPending (notify t data env) = 1 ∧
    (notify t data env).getLast? =
      some (Event.toastSuccess (strOr (t TKey.pdfGenerated) fbPdfGenerated)) ∧
    countTerminal (notify t data env) =
      (if (generateTagBody t data env).2.isSome then 2 else 1) := by
  obtain ⟨hP0, hS0, hErr, hTE⟩ := generateTag_counts t data env
  have hn := notify_eq t data env
  refine ⟨by rw [hn]; rfl, ?_, ?_, ?_⟩
  · rw [hn]
    simp only [countPending, List.countP_cons, List.countP_append,
      List.countP_nil] at hP0 ⊢
    simp [hP0, isPendingToast]
  · rw [hn, ← List.cons_append]
    exact List.getLast?_concat _
  · rw [hn]
    simp only [countTerminal, countError] at hErr hTE ⊢
    simp only [List.countP_cons, List.countP_append, List.countP_nil]
    rw [hTE, hErr]
    by_cases hb : (generateTagBody t data env).2.isSome <;>
      simp [hb, isTerminal]

/-- C3: on a resolved mutation the handler emits exactly one success toast
followed by exactly one refresh trigger and nothing else after the mutation
request; on a rejected mutation it emits exactly two error toasts (the generic
one, then the error's own message) and no refresh trigger. -/
theorem markCheckIn_success_and_failure (t : TKey → String)
    (data : InterfaceTableCheckIn) (m : String) :
    markCheckIn t data MutationOutcome.ok =
      [Event.checkInCall data.userId data.eventId,
       Event.toastSuccess (t TKey.checkedInSuccessfully), Event.refetch] ∧
    markCheckIn t data (MutationOutcome.err m) =
      [Event.checkInCall data.userId data.eventId,
       Event.toastError (t TKey.errorCheckingIn), Event.toastError m] ∧
    countSuccess (markCheckIn t data MutationOutcome.ok) = 1 ∧
    countRefetch (markCheckIn t data MutationOutcome.ok) = 1 ∧
    countError (markCheckIn t data MutationOutcome.ok) = 0 ∧
    countError (markCheckIn t data (MutationOutcome.err m)) = 2 ∧
    countSuccess (markCheckIn t data (MutationOutcome.err m)) = 0 ∧
    countRefetch (markCheckIn t data (MutationOutcome.err m)) = 0 := by
  refine ⟨rfl, rfl, ?_, ?_, ?_, ?_, ?_, ?_⟩ <;>
    simp [markCheckIn, countSuccess, countRefetch, countError, List.countP_cons,
      isSuccessToast, isRefetch, isErrorToast]

/-- C4: for a record whose name trims to the empty string, `generateTag`
throws the validation error before any generation attempt: the generator is
never called, no artifact is opened, and the only emitted event is the error
toast carrying the validation message. -/
theorem generateTag_invalid_name (t : TKey → String)
    (data : InterfaceTableCheckIn) (env : GenerateEnv)
    (h : jsTrim data.name = "") :
    countGenCall (generateTag t data env).1 = 0 ∧
    countOpen (generateTag t data env).1 = 0 ∧
    (generateTag t data env).1 =
      [Event.toastError
        (catchText t (JsValue.error (strOr (t TKey.invalidName) fbInvalidName)))] := by
  have hb : generateTagBody t data env =
      ([], some (JsValue.error (strOr (t TKey.invalidName) fbInvalidName))) := by
    unfold generateTagBody
    rw [if_pos (Or.inr h)]
  rw [generateTag_eq, hb]
  simp [countGenCall, countOpen, isGenCall, isOpen]

/-- C4 witness: the whitespace-only name `"   "` trims to the empty string
and `generateTag` on that record calls no generator, opens nothing, and emits
only the validation error toast. -/
theorem generateTag_invalid_name_witness :
    jsTrim recBlank.name = "" ∧
    (countGenCall (generateTag tEmpty recBlank envOk).1 = 0 ∧
     countOpen (generateTag tEmpty recBlank envOk).1 = 0 ∧
     (generateTag tEmpty recBlank envOk).1 =
       [Event.toastError
         (catchText tEmpty
           (JsValue.error (strOr (tEmpty TKey.invalidName) fbInvalidName)))]) :=
  ⟨by decide, generateTag_invalid_name tEmpty recBlank envOk (by decide)⟩

/-- C5: for a record whose name survives trimming, `generateTag` hands the
generator exactly one text field input whose content is the trimmed name,
center-aligned, at the base font size 12 with automatic shrink-to-fit
enabled. -/
theorem generateTag_field_input (t : TKey → String)
    (data : InterfaceTableCheckIn) (env : GenerateEnv)
    (h : jsTrim data.name ≠ "") :
    callInputs (generateTag t data env).1 = some [schemaInput data] ∧
    (schemaInput data).content = jsTrim data.name ∧
    (schemaInput data).type = "text" ∧
    (schemaInput data).alignment = some Alignment.center ∧
    (schemaInput data).fontSize = some 12 ∧
    (schemaInput data).dynamicFontSize = some true :=
  ⟨callInputs_valid t data env h, rfl, rfl, rfl, rfl, rfl⟩

/-- C5 witness: the padded name `"  Alice  "` yields the single field input
with content `"Alice"`, never the padded or the empty string. -/
theorem generateTag_field_input_witness :
    jsTrim recAlice.name ≠ "" ∧
    (schemaInput recAlice).content = "Alice" ∧
    (callInputs (generateTag tEmpty recAlice envOk).1 = some [schemaInput recAlice] ∧
     (schemaInput recAlice).content = jsTrim recAlice.name ∧
     (schemaInput recAlice).type = "text" ∧
     (schemaInput recAlice).alignment = some Alignment.center ∧
     (schemaInput recAlice).fontSize = some 12 ∧
     (schemaInput recAlice).dynamicFontSize = some true) :=
  ⟨by decide, by decide, generateTag_field_input tEmpty recAlice envOk (by decide)⟩

/-- C6: whenever the try-block of `generateTag` throws — validation error,
generator rejection, or deliver failure — the last emitted event is the error
toast whose text is the generic generation-failed message followed by the
underlying error's message, and no artifact handle is opened. -/
theorem generateTag_error_text (t : TKey → String)
    (data : InterfaceTableCheckIn) (env : GenerateEnv) (e : JsValue)
    (h : (generateTagBody t data env).2 = some e) :
    (generateTag t data env).1.getLast? = some (Event.toastError (catchText t e)) ∧
    countOpen (generateTag t data env).1 = 0 ∧
    catchText t e = t TKey.pdfGenerationError ++ ": " ++ thrownMessage e := by
  have hg := generateTag_eq t data env
  rw [h] at hg
  have hopen : countOpen (generateTagBody t data env).1 = 0 :=
    body_no_open_of_thrown t data env (by rw [h]; rfl)
  refine ⟨?_, ?_, rfl⟩
  · rw [hg]
    exact List.getLast?_concat _
  · rw [hg]
    simp only [countOpen, List.countP_append] at hopen ⊢
    simp [hopen, isOpen]

/-- C6 witness: with the generator rejecting with `template malformed`, the
last event of `generateTag` is the error toast `": template malformed"` (empty
translation plus separator plus the underlying message) and nothing is
opened. -/
theorem generateTag_error_text_witness :
    (generateTagBody tEmpty recCarol envGenFail).2 =
      some (JsValue.error "template malformed") ∧
    ((generateTag tEmpty recCarol envGenFail).1.getLast? =
       some (Event.toastError (catchText tEmpty (JsValue.error "template malformed"))) ∧
     countOpen (generateTag tEmpty recCarol envGenFail).1 = 0 ∧
     catchText tEmpty (JsValue.error "template malformed") =
       tEmpty TKey.pdfGenerationError ++ ": " ++
         thrownMessage (JsValue.error "template malformed")) :=
  ⟨by decide,
   generateTag_error_text tEmpty recCarol envGenFail
     (JsValue.error "template malformed") (by decide)⟩

/-- C7: no failure escapes either handler: `generateTag` always resolves, a
throw inside its try-block surfaces as exactly one direct error toast (and a
run without a throw emits none), and a rejected check-in mutation is fully
absorbed into the two error toasts of `markCheckIn`'s catch handler. -/
theorem failures_caught (t : TKey → String) (data : InterfaceTableCheckIn)
    (env : GenerateEnv) (m : String) :
    (generateTag t data env).2 = none ∧
    countError (generateTag t data env).1 =
      (if (generateTagBody t data env).2.isSome then 1 else 0) ∧
    markCheckIn t data (MutationOutcome.err m) =
      [Event.checkInCall data.userId data.eventId,
       Event.toastError (t TKey.errorCheckingIn), Event.toastError m] := by
  obtain ⟨-, -, hErr, -⟩ := generateTag_counts t data env
  exact ⟨by rw [generateTag_eq], hErr, rfl⟩

/-- C8: the field inputs passed to the generator are a deterministic function
of the record alone — two invocations of `generateTag` on the same unchanged
record, under any translation tables and any generator/delivery outcomes,
construct identical schema inputs. -/
theorem field_inputs_deterministic (t t2 : TKey → String)
    (data : InterfaceTableCheckIn) (env env2 : GenerateEnv)
    (h : jsTrim data.name ≠ "") :
    callInputs (generateTag t data env).1 = some [schemaInput data] ∧
    callInputs (generateTag t data env).1 = callInputs (generateTag t2 data env2).1 :=
  ⟨callInputs_valid t data env h,
   (callInputs_valid t data env h).trans (callInputs_valid t2 data env2 h).symm⟩

/-- C8 witness: two runs on the record named `Carol`, one with a succeeding
and one with a rejecting generator and different translations, pass identical
inputs. -/
theorem field_inputs_deterministic_witness :
    jsTrim recCarol.name ≠ "" ∧
    (callInputs (generateTag tEmpty recCarol envOk).1 = some [schemaInput recCarol] ∧
     callInputs (generateTag tEmpty recCarol envOk).1 =
       callInputs (generateTag (fun _ => "x") recCarol envGenFail).1) :=
  ⟨by decide,
   field_inputs_deterministic tEmpty (fun _ => "x") recCarol envOk envGenFail (by decide)⟩

/-- C9: neither handler mutates the attendee record: with the row state
threaded explicitly, every field of the record (`userId`, `eventId`, `name`,
`checkIn`) is unchanged after `markCheckIn` under any mutation outcome and
after `generateTag` under any generator outcome — the sources read the record
and assign to none of its fields. -/
theorem record_not_mutated (t : TKey → String) (data : InterfaceTableCheckIn)
    (outcome : MutationOutcome) (env : GenerateEnv) :
    (markCheckInRun t ⟨data⟩ outcome).1.data.userId = data.userId ∧
    (markCheckInRun t ⟨data⟩ outcome).1.data.eventId = data.eventId ∧
    (markCheckInRun t ⟨data⟩ outcome).1.data.name = data.name ∧
    (markCheckInRun t ⟨data⟩ outcome).1.data.checkIn = data.checkIn ∧
    (generateTagRun t ⟨data⟩ env).1.data.userId = data.userId ∧
    (generateTagRun t ⟨data⟩ env).1.data.eventId = data.eventId ∧
    (generateTagRun t ⟨data⟩ env).1.data.name = data.name ∧
    (generateTagRun t ⟨data⟩ env).1.data.checkIn = data.checkIn :=
  ⟨rfl, rfl, rfl, rfl, rfl, rfl, rfl, rfl⟩

/-- C10: the promise returned by `generateTag` resolves for every record and
every generator outcome — the thrown component is always `none` — so the
`toast.promise` wrapper's terminal toast is always the success message, the
terminal notifications of `notify` are that one success toast plus exactly the
error toasts `generateTag` emitted directly, and a thrown non-`Error` value is
reported as the `Unknown error` message. -/
theorem generateTag_always_resolves (t : TKey → String)
    (data : InterfaceTableCheckIn) (env : GenerateEnv) :
    (generateTag t data env).2 = none ∧
    (notify t data env).getLast? =
      some (Event.toastSuccess (strOr (t TKey.pdfGenerated) fbPdfGenerated)) ∧
    countTerminal (notify t data env) = 1 + countError (generateTag t data env).1 ∧
    thrownMessage JsValue.nonError = fbUnknownError := by
  obtain ⟨hP0, hS0, hErr, hTE⟩ := generateTag_counts t data env
  have hn := notify_eq t data env
  refine ⟨by rw [generateTag_eq], ?_, ?_, rfl⟩
  · rw [hn, ← List.cons_append]
    exact List.getLast?_concat _
  · rw [hn]
    simp only [countTerminal, countError] at hErr hTE ⊢
    simp only [List.countP_cons, List.countP_append, List.countP_nil]
    rw [hTE]
    simp [isTerminal]
    omega

end CheckInRow
